import Mathlib

/-!
Verification development for the auto-resolution subsystem of the
mindformers repository (`mindformers/auto_class.py`): the identifier
resolvers of `AutoConfig`, `AutoModel`, `AutoProcessor` and
`AutoTokenizer`, and the config round-trip bridge
(`_inverse_parse_config` / `_wrap_config`).

The Python code is embedded shallowly.  Filesystem state is explicit: a
record of existing file paths and directory paths, threaded through each
resolver.  `os.path.join(a, b)` is modelled as `a ++ "/" ++ b`,
`str.split("_")[0]` as the prefix of the string before the first
underscore, and `str.endswith(suf)` as a suffix test on the character
list.  Config loading (`MindFormerConfig`) and model/processor/tokenizer
construction (`build_model`, `build_processor`, registry lookup) are
external collaborators; each resolver here returns the artefacts the
Python code hands to them (the resolved yaml path, the injected
checkpoint path, the tokenizer class name) together with the final
filesystem state.
-/

/-- `s.endswith(suffix)` on character lists (structural, evaluates by `rfl`). -/
def strEndsWith (s suffix : String) : Bool :=
  s.data.reverse.take suffix.data.length == suffix.data.reverse

/-- `s.startswith(pre)` on character lists. -/
def strStartsWith (s pre : String) : Bool :=
  s.data.take pre.data.length == pre.data

/-- `yaml_name_or_path.split('_')[0]`: the prefix of the string before the
first underscore (Python `split` puts that prefix at index 0). -/
def familyOf (s : String) : String :=
  String.mk (s.data.takeWhile (fun c => c ≠ '_'))

/-- `os.path.join(a, b)` for a relative second component. -/
def osJoin (a b : String) : String := a ++ "/" ++ b

/-- Filesystem state visible to the resolvers: the set of existing regular
files and the set of existing directories, each as a list of absolute
paths. -/
structure FS where
  files : List String
  dirs : List String
deriving DecidableEq

/-- `os.path.exists`. -/
def FS.existsPath (fs : FS) (p : String) : Bool :=
  fs.files.contains p || fs.dirs.contains p

/-- `os.path.isdir`. -/
def FS.isDir (fs : FS) (p : String) : Bool :=
  fs.dirs.contains p

/-- `os.path.isfile`. -/
def FS.isFile (fs : FS) (p : String) : Bool :=
  fs.files.contains p

/-- `os.makedirs(d)`: the directory now exists. -/
def FS.makedirs (fs : FS) (d : String) : FS :=
  { fs with dirs := d :: fs.dirs }

/-- `shutil.copy(src, dst)`: the destination file now exists (`src` must
already exist; the call sites check that first). -/
def FS.copy (fs : FS) (_src dst : String) : FS :=
  { fs with files := dst :: fs.files }

/-- Name of a direct child of directory `d` at path `p`, if `p` is one. -/
def childName (d p : String) : Option String :=
  if strStartsWith p (d ++ "/") then
    let rest := p.data.drop (d.data.length + 1)
    if rest.contains '/' || rest.isEmpty then none else some (String.mk rest)
  else none

/-- `os.listdir(d)`: names of the files and directories directly inside `d`. -/
def FS.listdir (fs : FS) (d : String) : List String :=
  (fs.files ++ fs.dirs).filterMap (childName d)

/-- Modelled from the spec: the static data the resolvers read from
`MindFormerBook` (whose module is not part of the sources at hand) — the
cache root (`get_default_checkpoint_download_folder`), the bundled-config
root (`get_project_path`) and the model SupportList
(`get_model_support_list`, a mapping from family name to the list of
supported identifiers). -/
structure Book where
  cacheRoot : String
  projectPath : String
  supportList : List (String × List String)
deriving DecidableEq

/-- First value stored under key `k`, mirroring Python dict lookup. -/
def lookupKey (l : List (String × List String)) (k : String) : Option (List String) :=
  match l with
  | [] => none
  | (k1, v) :: rest => if k1 = k then some v else lookupKey rest k

/-- `k in d.keys()`. -/
def keysContain (l : List (String × List String)) (k : String) : Bool :=
  l.any (fun p => p.1 = k)

/-- `name.split('_')[0] in support_list.keys() and name in
support_list[name.split('_')[0]]`. -/
def supportedIn (l : List (String × List String)) (name : String) : Bool :=
  match lookupKey l (familyOf name) with
  | none => false
  | some ids => ids.contains name

/-- `d.pop(k)` on a support list: every entry under key `k` is removed
(`AutoProcessor._support_list.pop("mae")` acts on a deep copy, so the
original mapping is untouched). -/
def eraseKey (k : String) (l : List (String × List String)) : List (String × List String) :=
  l.filter (fun p => p.1 ≠ k)

/-- The failure modes of the resolvers, one constructor per `raise` site
reached by the embedded control flow (TypeError on non-string input is
ruled out by typing).  `indexError` is the Python `IndexError` raised by
an unguarded `yaml_list[0]` on an empty list. -/
inductive ResolveError where
  | invalidExtension (p : String)
  | notADirectory (p : String)
  | unsupported (slist : List (String × List String))
  | missingDefault (defaultPath : String)
  | noYamlOrCkpt (dir : String)
  | indexError
  | tokenizerConfigNotFound (p : String)
  | missingTokenizerClass (p : String)
  | notFoundIdentifier (p : String)
deriving DecidableEq

/-- The cache path of a supported bare identifier:
`cache-root/family/name.yaml`. -/
def cachedYamlPath (book : Book) (name : String) : String :=
  osJoin (osJoin book.cacheRoot (familyOf name)) (name ++ ".yaml")

/-- The cache directory of a bare identifier: `cache-root/family`. -/
def cacheDirPath (book : Book) (name : String) : String :=
  osJoin book.cacheRoot (familyOf name)

/-- The bundled default template of a bare identifier:
`project/configs/family/model_config/name.yaml`. -/
def defaultYamlPath (book : Book) (name : String) : String :=
  osJoin (osJoin (osJoin (osJoin book.projectPath "configs") (familyOf name))
    "model_config") (name ++ ".yaml")

/-- The cache branch shared verbatim by the four `from_pretrained`
methods (`AutoConfig` lines 92–110 and its three copies): create
`cache-root/family` if absent; if the cached yaml is absent, copy the
bundled default template into it (`FileNotFoundError` when the template
is missing; `os.path.realpath(p)` of the non-empty joined path is always
truthy, so the guard reduces to `os.path.exists`); return the cached
yaml path. -/
def resolveFromCache (book : Book) (fs : FS) (name : String) :
    Except ResolveError String × FS :=
  let checkpointPath := cacheDirPath book name
  let fs1 := if fs.existsPath checkpointPath then fs else fs.makedirs checkpointPath
  let yamlFile := cachedYamlPath book name
  if fs1.existsPath yamlFile then (.ok yamlFile, fs1)
  else
    let defaultYamlFile := defaultYamlPath book name
    if fs1.existsPath defaultYamlFile then (.ok yamlFile, fs1.copy defaultYamlFile yamlFile)
    else (.error (.missingDefault defaultYamlFile), fs1)

/-- `AutoConfig.from_pretrained(yaml_name_or_path)`, up to the
`MindFormerConfig` load: the resolved yaml path the config is built
from, plus the final filesystem state. -/
def AutoConfig.fromPretrained (book : Book) (fs : FS) (name : String) :
    Except ResolveError String × FS :=
  if fs.existsPath name then
    if !strEndsWith name ".yaml" then (.error (.invalidExtension name), fs)
    else (.ok name, fs)
  else if !supportedIn book.supportList name then
    (.error (.unsupported book.supportList), fs)
  else
    resolveFromCache book fs name

/-- What `AutoModel.from_pretrained` hands to `build_model`: the yaml
path the config is loaded from, and the value injected into
`model.model_config.checkpoint_name_or_path` (a checkpoint file path in
the directory branch, the bare identifier in the cache branch). -/
structure ModelResolution where
  yamlFile : String
  checkpointNameOrPath : Option String
deriving DecidableEq

/-- `AutoModel.from_pretrained(pretrained_model_name_or_dir)`, up to
`build_model`. -/
def AutoModel.fromPretrained (book : Book) (fs : FS) (name : String) :
    Except ResolveError ModelResolution × FS :=
  let isExist := fs.existsPath name
  let isDir := fs.isDir name
  if isExist && !isDir then (.error (.notADirectory name), fs)
  else if !isExist && !supportedIn book.supportList name then
    (.error (.unsupported book.supportList), fs)
  else if isDir then
    let yamlList := (fs.listdir name).filter (fun f => strEndsWith f ".yaml")
    let ckptList := (fs.listdir name).filter (fun f => strEndsWith f ".ckpt")
    match yamlList, ckptList with
    | [], _ => (.error (.noYamlOrCkpt name), fs)
    | _ :: _, [] => (.error (.noYamlOrCkpt name), fs)
    | y :: _, c :: _ => (.ok ⟨osJoin name y, some (osJoin name c)⟩, fs)
  else
    match resolveFromCache book fs name with
    | (.ok yamlFile, fs1) => (.ok ⟨yamlFile, some name⟩, fs1)
    | (.error e, fs1) => (.error e, fs1)

/-- `AutoProcessor._support_list`: a deep copy of the model SupportList
with the `"mae"` family popped. -/
def AutoProcessorSupportList (modelSupportList : List (String × List String)) :
    List (String × List String) :=
  eraseKey "mae" modelSupportList

/-- `AutoConfig._support_list` as returned by
`AutoConfig.get_support_list()`. -/
def AutoConfigSupportList (modelSupportList : List (String × List String)) :
    List (String × List String) :=
  modelSupportList

/-- `AutoModel._support_list` as returned by
`AutoModel.get_support_list()`. -/
def AutoModelSupportList (modelSupportList : List (String × List String)) :
    List (String × List String) :=
  modelSupportList

/-- `AutoTokenizer._support_list` as returned by
`AutoTokenizer.get_support_list()`: the tokenizer SupportList
(`MindFormerBook.get_tokenizer_support_list`), a mapping distinct from
the model SupportList. -/
def AutoTokenizerSupportList (tokenizerSupportList : List (String × List String)) :
    List (String × List String) :=
  tokenizerSupportList

/-- `AutoProcessor.from_pretrained(yaml_name_or_path)`, up to the
`MindFormerConfig` load handed to `build_processor`: in the directory
branch the code indexes `yaml_list[0]` without an emptiness guard, so an
empty filter result raises `IndexError`. -/
def AutoProcessor.fromPretrained (book : Book) (fs : FS) (name : String) :
    Except ResolveError String × FS :=
  let slist := AutoProcessorSupportList book.supportList
  let isExist := fs.existsPath name
  let modelName := familyOf name
  if !isExist && !keysContain slist modelName then
    (.error (.unsupported slist), fs)
  else if isExist then
    if fs.isDir name then
      match (fs.listdir name).filter (fun f => strEndsWith f ".yaml") with
      | [] => (.error .indexError, fs)
      | y :: _ => (.ok (osJoin name y), fs)
    else (.ok name, fs)
  else if keysContain slist modelName && supportedIn slist name then
    resolveFromCache book fs name
  else (.error (.unsupported slist), fs)

/-- Python falsiness of an optional string (`if not class_name`): `None`
and the empty string are falsy. -/
def optStrFalsy : Option String → Bool
  | none => true
  | some s => s = ""

/-- `AutoTokenizer._get_class_name_from_yaml(yaml_name_or_path)`.  The
parsed yaml content is abstracted by `yamlTokType`, mapping a yaml path
to the `processor.tokenizer.type` field of the file at that path (`none`
when the chain of keys is absent).  `.ok none` is the `return None` that
triggers the caller's fallback. -/
def AutoTokenizer.getClassNameFromYaml (yamlTokType : String → Option String)
    (fs : FS) (name : String) : Except ResolveError (Option String) :=
  if !fs.isFile name then
    if !fs.existsPath name then .error (.notFoundIdentifier name)
    else if !fs.isDir name then .error (.notADirectory name)
    else
      match (fs.listdir name).filter (fun f => strEndsWith f ".yaml") with
      | [] => .ok none
      | y :: _ => .ok (yamlTokType (osJoin name y))
  else .ok (yamlTokType name)

/-- `AutoTokenizer._get_class_name_from_tokenizer_config_file(dir)`:
reads `dir/tokenizer_config.json` (`FileNotFoundError` when absent);
`jsonTokClass` abstracts the parsed JSON, mapping the file path to its
`tokenizer_class` value (`none` when the key is absent); a missing or
falsy value raises `ValueError`. -/
def AutoTokenizer.getClassNameFromTokenizerConfigFile
    (jsonTokClass : String → Option String) (fs : FS) (dir : String) :
    Except ResolveError String :=
  let tokenizerConfigPath := osJoin dir "tokenizer_config.json"
  if !fs.existsPath tokenizerConfigPath then
    .error (.tokenizerConfigNotFound tokenizerConfigPath)
  else
    match jsonTokClass tokenizerConfigPath with
    | none => .error (.missingTokenizerClass tokenizerConfigPath)
    | some c =>
      if c = "" then .error (.missingTokenizerClass tokenizerConfigPath)
      else .ok c

/-- `AutoTokenizer.from_pretrained(yaml_name_or_path)`, up to the
registry lookup: the class name passed to `MindFormerRegister.get_cls`
(`none` when the cache branch found no tokenizer type in the yaml) and
the final filesystem state. -/
def AutoTokenizer.fromPretrained (book : Book)
    (tokenizerSupportList : List (String × List String))
    (yamlTokType jsonTokClass : String → Option String)
    (fs : FS) (name : String) :
    Except ResolveError (Option String) × FS :=
  if ((AutoTokenizerSupportList tokenizerSupportList).map Prod.snd).flatten.contains name then
    match resolveFromCache book fs name with
    | (.ok yamlFile, fs1) =>
      match AutoTokenizer.getClassNameFromYaml yamlTokType fs1 yamlFile with
      | .ok cn => (.ok cn, fs1)
      | .error e => (.error e, fs1)
    | (.error e, fs1) => (.error e, fs1)
  else if fs.isDir name then
    match AutoTokenizer.getClassNameFromYaml yamlTokType fs name with
    | .error e => (.error e, fs)
    | .ok cn =>
      if optStrFalsy cn then
        match AutoTokenizer.getClassNameFromTokenizerConfigFile jsonTokClass fs name with
        | .ok c => (.ok (some c), fs)
        | .error e => (.error e, fs)
      else (.ok cn, fs)
  else (.error (.notFoundIdentifier name), fs)

/-!
The config round-trip bridge.  `BaseConfig` (module
`mindformers/models/base_config.py`, not among the sources at hand) is
modelled from the spec: a dict-like config object — an ordered mapping
from string keys to values with `update` / `pop` / `items` — carrying
its concrete class name.  Values are scalars, `None`, or nested
configs.
-/

mutual
/-- Modelled from the spec: a value held by a `BaseConfig` field —
a scalar, `None`, or a nested config object. -/
inductive ConfigValue where
  | str : String → ConfigValue
  | null : ConfigValue
  | obj : BaseConfig → ConfigValue

/-- Modelled from the spec: a `BaseConfig` object — its concrete class
name plus its ordered field mapping. -/
inductive BaseConfig where
  | mk : String → List (String × ConfigValue) → BaseConfig
end

/-- `config.__class__.__name__`. -/
def BaseConfig.className : BaseConfig → String
  | .mk cn _ => cn

/-- The ordered field mapping of a config. -/
def BaseConfig.fields : BaseConfig → List (String × ConfigValue)
  | .mk _ fs => fs

/-- Dict lookup: the value stored under `k`, first occurrence. -/
def getField (l : List (String × ConfigValue)) (k : String) : Option ConfigValue :=
  match l with
  | [] => none
  | (k1, v) :: rest => if k1 = k then some v else getField rest k

/-- `d.update({k: v})`: overwrite the key's slot in place when it exists
(keeping its position, as Python dicts do), append at the end
otherwise. -/
def updateKey (l : List (String × ConfigValue)) (k : String) (v : ConfigValue) :
    List (String × ConfigValue) :=
  match l with
  | [] => [(k, v)]
  | (k1, v1) :: rest => if k1 = k then (k, v) :: rest else (k1, v1) :: updateKey rest k v

/-- `d.pop(k, None)`: the removed value (or `none`) and the remaining
fields. -/
def popKey (l : List (String × ConfigValue)) (k : String) :
    Option ConfigValue × List (String × ConfigValue) :=
  match l with
  | [] => (none, [])
  | (k1, v) :: rest =>
    if k1 = k then (some v, rest)
    else
      let r := popKey rest k
      (r.1, (k1, v) :: r.2)

mutual
/-- `AutoModel._inverse_parse_config` on a field value: non-config
values are returned unchanged, nested configs are recursively
inverse-parsed. -/
def inverseParseVal : ConfigValue → ConfigValue
  | .str s => .str s
  | .null => .null
  | .obj c => .obj (inverseParseCfg c)

/-- `AutoModel._inverse_parse_config(config)`: writes the concrete class
name under the `type` key, then recursively rewrites every field value.
The Python code sets `type` before the walk; since the walk leaves the
freshly written string untouched, writing it after the walk is the same
function. -/
def inverseParseCfg : BaseConfig → BaseConfig
  | .mk cn fs => .mk cn (updateKey (inverseParseFields fs) "type" (.str cn))

/-- The `for key, val in config.items()` loop body of
`_inverse_parse_config`. -/
def inverseParseFields : List (String × ConfigValue) → List (String × ConfigValue)
  | [] => []
  | (k, v) :: rest => (k, inverseParseVal v) :: inverseParseFields rest
end

/-- `AutoModel._wrap_config(config)`.  `side` abstracts
`MindFormerBook.get_model_config_to_name().get(id(config), None)`, the
identity-keyed side table entry for this config (modelled from the spec:
the table lives in the `MindFormerBook` module, absent from the sources
at hand).  `config.pop("model_name", None)` yields the stored value, or
`None` when the key is absent; the subsequent `if model_name is None`
check then falls back to the side table both when the key was absent and
when its stored value was itself `None`.  The result is re-nested as
`{model: {model_config: config, arch: {type: name}}}`. -/
def wrapConfig (side : Option String) (config : BaseConfig) : BaseConfig :=
  let popped := popKey config.fields "model_name"
  let modelName0 : ConfigValue :=
    match popped.1 with
    | some v => v
    | none => .null
  let modelName : ConfigValue :=
    match modelName0 with
    | .null =>
      match side with
      | some s => .str s
      | none => .null
    | v => v
  let arch := BaseConfig.mk "BaseConfig" [("type", modelName)]
  let model := BaseConfig.mk "BaseConfig"
    [("model_config", .obj (BaseConfig.mk config.className popped.2)),
     ("arch", .obj arch)]
  BaseConfig.mk "BaseConfig" [("model", .obj model)]

/-- The `model.arch.type` value of a wrapped tree. -/
def archTypeVal (tree : BaseConfig) : Option ConfigValue :=
  match getField tree.fields "model" with
  | some (.obj model) =>
    match getField model.fields "arch" with
    | some (.obj arch) => getField arch.fields "type"
    | _ => none
  | _ => none

/-- The `model.model_config.type` value of a wrapped tree. -/
def modelConfigTypeVal (tree : BaseConfig) : Option ConfigValue :=
  match getField tree.fields "model" with
  | some (.obj model) =>
    match getField model.fields "model_config" with
    | some (.obj mc) => getField mc.fields "type"
    | _ => none
  | _ => none

/-! ### Helper lemmas about the filesystem model -/

@[simp]
theorem FS.existsPath_makedirs (fs : FS) (d p : String) :
    (fs.makedirs d).existsPath p = (decide (p = d) || fs.existsPath p) := by
  simp [FS.makedirs, FS.existsPath, Bool.or_comm, Bool.or_left_comm]

@[simp]
theorem FS.existsPath_copy (fs : FS) (src dst p : String) :
    (fs.copy src dst).existsPath p = (decide (p = dst) || fs.existsPath p) := by
  simp [FS.copy, FS.existsPath, Bool.or_comm, Bool.or_left_comm, Bool.or_assoc]

@[simp]
theorem FS.isFile_copy (fs : FS) (src dst p : String) :
    (fs.copy src dst).isFile p = (decide (p = dst) || fs.isFile p) := by
  simp [FS.copy, FS.isFile]

@[simp]
theorem FS.isDir_makedirs (fs : FS) (d p : String) :
    (fs.makedirs d).isDir p = (decide (p = d) || fs.isDir p) := by
  simp [FS.makedirs, FS.isDir]

@[simp]
theorem FS.isDir_copy (fs : FS) (src dst p : String) :
    (fs.copy src dst).isDir p = fs.isDir p := by
  simp [FS.copy, FS.isDir]

theorem FS.isDir_eq_false_of_not_exists (fs : FS) (p : String)
    (h : fs.existsPath p = false) : fs.isDir p = false := by
  simp [FS.existsPath] at h
  simp [FS.isDir, h]

theorem FS.existsPath_of_isDir (fs : FS) (p : String)
    (h : fs.isDir p = true) : fs.existsPath p = true := by
  simp [FS.isDir] at h
  simp [FS.existsPath, h]

theorem osJoin_length (a b : String) :
    (osJoin a b).length = a.length + 1 + b.length := by
  have h : ("/" : String).length = 1 := rfl
  simp only [osJoin, String.length_append, h]

theorem osJoin_ne_left (a b : String) : osJoin a b ≠ a := by
  intro h
  have h2 := congrArg String.length h
  rw [osJoin_length] at h2
  omega

theorem cachedYamlPath_ne_cacheDirPath (book : Book) (name : String) :
    cachedYamlPath book name ≠ cacheDirPath book name :=
  osJoin_ne_left _ _

/-! ### The shared cache branch -/

/-- When the cached yaml or the bundled default template exists, the
cache branch succeeds: it returns the cached yaml path, the cache
directory exists afterwards, and if the cached yaml was absent it has
been copied into place. -/
theorem resolveFromCache_ok (book : Book) (fs : FS) (name : String)
    (havail : fs.existsPath (cachedYamlPath book name) = true ∨
      fs.existsPath (defaultYamlPath book name) = true) :
    (resolveFromCache book fs name).1 = .ok (cachedYamlPath book name)
    ∧ (resolveFromCache book fs name).2.existsPath (cacheDirPath book name) = true
    ∧ (fs.existsPath (cachedYamlPath book name) = false →
        (resolveFromCache book fs name).2.isFile (cachedYamlPath book name) = true)
    ∧ (resolveFromCache book fs name).2.existsPath (cachedYamlPath book name) = true := by
  have hne : cachedYamlPath book name ≠ cacheDirPath book name :=
    cachedYamlPath_ne_cacheDirPath book name
  by_cases hdc : defaultYamlPath book name = cacheDirPath book name <;>
    cases hcd : fs.existsPath (cacheDirPath book name) <;>
      cases hcy : fs.existsPath (cachedYamlPath book name) <;>
        cases hdf : fs.existsPath (defaultYamlPath book name) <;>
          simp_all [resolveFromCache]

/-- A concrete book for concrete runs of the resolvers. -/
def sampleBook : Book :=
  ⟨"cache", "proj", [("bert", ["bert_base_uncased"]), ("mae", ["mae_vit_base_p16"])]⟩

/-- A concrete filesystem holding only the bundled default template for
`bert_base_uncased`. -/
def sampleFS : FS :=
  ⟨["proj/configs/bert/model_config/bert_base_uncased.yaml"], []⟩

/-- When the cache directory and the cached yaml already exist, the
cache branch is a pure read: it returns the cached path and is the
identity on the filesystem. -/
theorem resolveFromCache_of_has (book : Book) (g : FS) (name : String)
    (hd : g.existsPath (cacheDirPath book name) = true)
    (hy : g.existsPath (cachedYamlPath book name) = true) :
    resolveFromCache book g name = (.ok (cachedYamlPath book name), g) := by
  simp [resolveFromCache, hd, hy]

/-- A successful cache branch is stable: running it again from the
filesystem it produced returns the same path and leaves the filesystem
unchanged (in particular, no second copy of the default template). -/
theorem resolveFromCache_idem (book : Book) (fs : FS) (name : String)
    (havail : fs.existsPath (cachedYamlPath book name) = true ∨
      fs.existsPath (defaultYamlPath book name) = true) :
    resolveFromCache book (resolveFromCache book fs name).2 name =
      (.ok (cachedYamlPath book name), (resolveFromCache book fs name).2) := by
  obtain ⟨_, h2, _, h4⟩ := resolveFromCache_ok book fs name havail
  exact resolveFromCache_of_has book (resolveFromCache book fs name).2 name h2 h4

/-- The cache branch touches no path other than the cache directory and
the cached yaml file. -/
theorem resolveFromCache_existsPath_preserved (book : Book) (fs : FS) (name p : String)
    (h1 : p ≠ cacheDirPath book name) (h2 : p ≠ cachedYamlPath book name) :
    (resolveFromCache book fs name).2.existsPath p = fs.existsPath p := by
  have hne : cachedYamlPath book name ≠ cacheDirPath book name :=
    cachedYamlPath_ne_cacheDirPath book name
  by_cases hdc : defaultYamlPath book name = cacheDirPath book name <;>
    cases hcd : fs.existsPath (cacheDirPath book name) <;>
      cases hcy : fs.existsPath (cachedYamlPath book name) <;>
        cases hdf : fs.existsPath (defaultYamlPath book name) <;>
          simp_all [resolveFromCache]

/-- C1: for a bare identifier absent from the filesystem whose family is
a SupportList key and which is listed under it, `AutoConfig.from_pretrained`
and `AutoModel.from_pretrained` resolve it to
`cache-root/family/identifier.yaml`: both return that cached path (the
model resolver also injecting the identifier as
`checkpoint_name_or_path`), the directory `cache-root/family` exists
afterwards (created when absent), and when the cached file was absent
the bundled default template has been copied into it. -/
theorem claimC1_bare_identifier_resolution (book : Book) (fs : FS) (name : String)
    (hnotexist : fs.existsPath name = false)
    (hsupported : supportedIn book.supportList name = true)
    (havail : fs.existsPath (cachedYamlPath book name) = true ∨
      fs.existsPath (defaultYamlPath book name) = true) :
    (AutoConfig.fromPretrained book fs name).1 = .ok (cachedYamlPath book name)
    ∧ (AutoConfig.fromPretrained book fs name).2.existsPath (cacheDirPath book name) = true
    ∧ (fs.existsPath (cachedYamlPath book name) = false →
        (AutoConfig.fromPretrained book fs name).2.isFile (cachedYamlPath book name) = true)
    ∧ (AutoModel.fromPretrained book fs name).1 =
        .ok ⟨cachedYamlPath book name, some name⟩
    ∧ (AutoModel.fromPretrained book fs name).2 = (AutoConfig.fromPretrained book fs name).2 := by
  have hdir : fs.isDir name = false := FS.isDir_eq_false_of_not_exists fs name hnotexist
  obtain ⟨h1, h2, h3, _⟩ := resolveFromCache_ok book fs name havail
  have hcfg : AutoConfig.fromPretrained book fs name = resolveFromCache book fs name := by
    simp [AutoConfig.fromPretrained, hnotexist, hsupported]
  rcases hres : resolveFromCache book fs name with ⟨r, fsr⟩
  rw [hres] at h1 h2 h3 hcfg
  simp only at h1 h2 h3
  subst h1
  have hmod : AutoModel.fromPretrained book fs name =
      (.ok ⟨cachedYamlPath book name, some name⟩, fsr) := by
    simp [AutoModel.fromPretrained, hnotexist, hdir, hsupported, hres]
  rw [hcfg, hmod]
  exact ⟨rfl, h2, h3, rfl, rfl⟩

/-- Witness for C1 at a concrete book and filesystem: the bundled
template exists, no cache exists, and resolution returns the cached
path. -/
theorem claimC1_bare_identifier_resolution_witness :
    sampleFS.existsPath "bert_base_uncased" = false
    ∧ supportedIn sampleBook.supportList "bert_base_uncased" = true
    ∧ (sampleFS.existsPath (cachedYamlPath sampleBook "bert_base_uncased") = true ∨
        sampleFS.existsPath (defaultYamlPath sampleBook "bert_base_uncased") = true)
    ∧ (AutoConfig.fromPretrained sampleBook sampleFS "bert_base_uncased").1 =
        .ok (cachedYamlPath sampleBook "bert_base_uncased") :=
  ⟨by decide, by decide, by decide,
    (claimC1_bare_identifier_resolution sampleBook sampleFS "bert_base_uncased"
      (by decide) (by decide) (by decide)).1⟩

/-- C3: a string naming no existing filesystem path whose family prefix
is not a SupportList key, or which is not listed under that family,
makes `AutoConfig.from_pretrained` and `AutoModel.from_pretrained` fail
with the unsupported-identifier error carrying the SupportList (the
`ValueError` message lists the supported families), leaving the
filesystem untouched. -/
theorem claimC3_unsupported_identifier (book : Book) (fs : FS) (name : String)
    (hnotexist : fs.existsPath name = false)
    (hunsupported : supportedIn book.supportList name = false) :
    AutoConfig.fromPretrained book fs name = (.error (.unsupported book.supportList), fs)
    ∧ AutoModel.fromPretrained book fs name = (.error (.unsupported book.supportList), fs) := by
  have hdir : fs.isDir name = false := FS.isDir_eq_false_of_not_exists fs name hnotexist
  constructor
  · simp [AutoConfig.fromPretrained, hnotexist, hunsupported]
  · simp [AutoModel.fromPretrained, hnotexist, hdir, hunsupported]

/-- Witness for C3: `doesnotexist_1` has family `doesnotexist`, absent
from the sample SupportList. -/
theorem claimC3_unsupported_identifier_witness :
    sampleFS.existsPath "doesnotexist_1" = false
    ∧ supportedIn sampleBook.supportList "doesnotexist_1" = false
    ∧ AutoConfig.fromPretrained sampleBook sampleFS "doesnotexist_1" =
        (.error (.unsupported sampleBook.supportList), sampleFS) :=
  ⟨by decide, by decide,
    (claimC3_unsupported_identifier sampleBook sampleFS "doesnotexist_1"
      (by decide) (by decide)).1⟩

/-- C4: resolving a supported bare identifier is idempotent — the two
calls return the same cached path, and the second call leaves the
filesystem exactly as the first left it (so the default template is not
copied again: the copy only happens when the cached file is absent,
and the first call made it present). -/
theorem claimC4_resolution_idempotent (book : Book) (fs : FS) (name : String)
    (hnotexist : fs.existsPath name = false)
    (hsupported : supportedIn book.supportList name = true)
    (havail : fs.existsPath (cachedYamlPath book name) = true ∨
      fs.existsPath (defaultYamlPath book name) = true)
    (hn1 : name ≠ cacheDirPath book name)
    (hn2 : name ≠ cachedYamlPath book name) :
    (AutoConfig.fromPretrained book fs name).1 = .ok (cachedYamlPath book name)
    ∧ AutoConfig.fromPretrained book (AutoConfig.fromPretrained book fs name).2 name =
        AutoConfig.fromPretrained book fs name
    ∧ (AutoModel.fromPretrained book fs name).1 = .ok ⟨cachedYamlPath book name, some name⟩
    ∧ AutoModel.fromPretrained book (AutoModel.fromPretrained book fs name).2 name =
        AutoModel.fromPretrained book fs name := by
  have hdir : fs.isDir name = false := FS.isDir_eq_false_of_not_exists fs name hnotexist
  obtain ⟨h1, _h2, _h3, _h4⟩ := resolveFromCache_ok book fs name havail
  have hcfg : AutoConfig.fromPretrained book fs name = resolveFromCache book fs name := by
    simp [AutoConfig.fromPretrained, hnotexist, hsupported]
  have hpres := resolveFromCache_existsPath_preserved book fs name name hn1 hn2
  have hidem0 := resolveFromCache_idem book fs name havail
  rcases hres : resolveFromCache book fs name with ⟨r, fsr⟩
  rw [hres] at h1 hcfg hpres hidem0
  simp only at h1 hpres hidem0
  subst h1
  rw [hnotexist] at hpres
  have hdir2 : fsr.isDir name = false := FS.isDir_eq_false_of_not_exists fsr name hpres
  have hidem : resolveFromCache book fsr name =
      (.ok (cachedYamlPath book name), fsr) := hidem0
  have hmod : AutoModel.fromPretrained book fs name =
      (.ok ⟨cachedYamlPath book name, some name⟩, fsr) := by
    simp [AutoModel.fromPretrained, hnotexist, hdir, hsupported, hres]
  refine ⟨by rw [hcfg], ?_, by rw [hmod], ?_⟩
  · rw [hcfg]
    simp [AutoConfig.fromPretrained, hpres, hsupported, hidem]
  · rw [hmod]
    simp [AutoModel.fromPretrained, hpres, hdir2, hsupported, hidem]

/-- Witness for C4 at the sample book and filesystem. -/
theorem claimC4_resolution_idempotent_witness :
    sampleFS.existsPath "bert_base_uncased" = false
    ∧ supportedIn sampleBook.supportList "bert_base_uncased" = true
    ∧ (sampleFS.existsPath (cachedYamlPath sampleBook "bert_base_uncased") = true ∨
        sampleFS.existsPath (defaultYamlPath sampleBook "bert_base_uncased") = true)
    ∧ "bert_base_uncased" ≠ cacheDirPath sampleBook "bert_base_uncased"
    ∧ "bert_base_uncased" ≠ cachedYamlPath sampleBook "bert_base_uncased"
    ∧ AutoConfig.fromPretrained sampleBook
        (AutoConfig.fromPretrained sampleBook sampleFS "bert_base_uncased").2
        "bert_base_uncased" =
      AutoConfig.fromPretrained sampleBook sampleFS "bert_base_uncased" :=
  ⟨by decide, by decide, by decide, by decide, by decide,
    (claimC4_resolution_idempotent sampleBook sampleFS "bert_base_uncased"
      (by decide) (by decide) (by decide) (by decide) (by decide)).2.1⟩

/-- C7: an existing path not ending in `.yaml` makes
`AutoConfig.from_pretrained` fail with the invalid-argument error; no
config path is produced and the filesystem is untouched. -/
theorem claimC7_existing_path_bad_extension (book : Book) (fs : FS) (p : String)
    (hexist : fs.existsPath p = true)
    (hext : strEndsWith p ".yaml" = false) :
    AutoConfig.fromPretrained book fs p = (.error (.invalidExtension p), fs) := by
  simp [AutoConfig.fromPretrained, hexist, hext]

/-- Witness for C7: an existing `.json` file. -/
theorem claimC7_existing_path_bad_extension_witness :
    (FS.mk ["a/b.json"] []).existsPath "a/b.json" = true
    ∧ strEndsWith "a/b.json" ".yaml" = false
    ∧ AutoConfig.fromPretrained sampleBook (FS.mk ["a/b.json"] []) "a/b.json" =
        (.error (.invalidExtension "a/b.json"), FS.mk ["a/b.json"] []) :=
  ⟨by decide, by decide,
    claimC7_existing_path_bad_extension sampleBook (FS.mk ["a/b.json"] []) "a/b.json"
      (by decide) (by decide)⟩

/-- C8: resolution of a supported bare identifier is not atomic on
failure — when the cache directory is absent and the bundled default
template is missing, both resolvers raise the missing-default error,
yet the freshly created cache directory `cache-root/family` persists in
the final filesystem state. -/
theorem claimC8_cache_dir_persists_on_failure (book : Book) (fs : FS) (name : String)
    (hnotexist : fs.existsPath name = false)
    (hsupported : supportedIn book.supportList name = true)
    (hnodir : fs.existsPath (cacheDirPath book name) = false)
    (hnocached : fs.existsPath (cachedYamlPath book name) = false)
    (hnodefault : fs.existsPath (defaultYamlPath book name) = false)
    (hnd : defaultYamlPath book name ≠ cacheDirPath book name) :
    (AutoConfig.fromPretrained book fs name).1 =
        .error (.missingDefault (defaultYamlPath book name))
    ∧ (AutoConfig.fromPretrained book fs name).2.isDir (cacheDirPath book name) = true
    ∧ (AutoModel.fromPretrained book fs name).1 =
        .error (.missingDefault (defaultYamlPath book name))
    ∧ (AutoModel.fromPretrained book fs name).2.isDir (cacheDirPath book name) = true := by
  have hdir : fs.isDir name = false := FS.isDir_eq_false_of_not_exists fs name hnotexist
  have hne : cachedYamlPath book name ≠ cacheDirPath book name :=
    cachedYamlPath_ne_cacheDirPath book name
  have hcache : resolveFromCache book fs name =
      (.error (.missingDefault (defaultYamlPath book name)),
        fs.makedirs (cacheDirPath book name)) := by
    simp [resolveFromCache, hnodir, hnocached, hnodefault, hne, hnd]
  have hcfg : AutoConfig.fromPretrained book fs name = resolveFromCache book fs name := by
    simp [AutoConfig.fromPretrained, hnotexist, hsupported]
  have hmod : AutoModel.fromPretrained book fs name =
      (.error (.missingDefault (defaultYamlPath book name)),
        fs.makedirs (cacheDirPath book name)) := by
    simp [AutoModel.fromPretrained, hnotexist, hdir, hsupported, hcache]
  rw [hcfg, hcache, hmod]
  simp

/-- Witness for C8: empty filesystem, supported identifier, no bundled
template — the error is raised and `cache/bert` exists afterwards. -/
theorem claimC8_cache_dir_persists_on_failure_witness :
    (FS.mk [] []).existsPath "bert_base_uncased" = false
    ∧ supportedIn sampleBook.supportList "bert_base_uncased" = true
    ∧ (FS.mk [] []).existsPath (cacheDirPath sampleBook "bert_base_uncased") = false
    ∧ (FS.mk [] []).existsPath (defaultYamlPath sampleBook "bert_base_uncased") = false
    ∧ (AutoConfig.fromPretrained sampleBook (FS.mk [] []) "bert_base_uncased").1 =
        .error (.missingDefault (defaultYamlPath sampleBook "bert_base_uncased"))
    ∧ (AutoConfig.fromPretrained sampleBook (FS.mk [] [])
        "bert_base_uncased").2.isDir (cacheDirPath sampleBook "bert_base_uncased") = true :=
  ⟨by decide, by decide, by decide, by decide,
    (claimC8_cache_dir_persists_on_failure sampleBook (FS.mk [] []) "bert_base_uncased"
      (by decide) (by decide) (by decide) (by decide) (by decide) (by decide)).1,
    (claimC8_cache_dir_persists_on_failure sampleBook (FS.mk [] []) "bert_base_uncased"
      (by decide) (by decide) (by decide) (by decide) (by decide) (by decide)).2.1⟩

/-- C5: when the identifier is an existing directory,
`AutoModel.from_pretrained` scans it for `.yaml` and `.ckpt` files: it
fails with the not-found error when either list is empty, and otherwise
uses the first match of each, injecting the selected checkpoint file's
path as `checkpoint_name_or_path`. -/
theorem claimC5_directory_resolution (book : Book) (fs : FS) (dir : String)
    (hdir : fs.isDir dir = true) :
    (((fs.listdir dir).filter (fun f => strEndsWith f ".yaml") = [] ∨
      (fs.listdir dir).filter (fun f => strEndsWith f ".ckpt") = []) →
        AutoModel.fromPretrained book fs dir = (.error (.noYamlOrCkpt dir), fs))
    ∧ (∀ y ys c cs,
        (fs.listdir dir).filter (fun f => strEndsWith f ".yaml") = y :: ys →
        (fs.listdir dir).filter (fun f => strEndsWith f ".ckpt") = c :: cs →
        AutoModel.fromPretrained book fs dir =
          (.ok ⟨osJoin dir y, some (osJoin dir c)⟩, fs)) := by
  have hex : fs.existsPath dir = true := FS.existsPath_of_isDir fs dir hdir
  constructor
  · intro h
    rcases h with h | h
    · simp [AutoModel.fromPretrained, hex, hdir, h]
    · cases hy : (fs.listdir dir).filter (fun f => strEndsWith f ".yaml") with
      | nil => simp [AutoModel.fromPretrained, hex, hdir, hy]
      | cons a as => simp [AutoModel.fromPretrained, hex, hdir, hy, h]
  · intro y ys c cs hy hc
    simp [AutoModel.fromPretrained, hex, hdir, hy, hc]

/-- Witness for C5 at a directory holding one yaml and one ckpt file. -/
theorem claimC5_directory_resolution_witness :
    (FS.mk ["/m/a.yaml", "/m/b.ckpt"] ["/m"]).isDir "/m" = true
    ∧ AutoModel.fromPretrained sampleBook (FS.mk ["/m/a.yaml", "/m/b.ckpt"] ["/m"]) "/m" =
        (.ok ⟨osJoin "/m" "a.yaml", some (osJoin "/m" "b.ckpt")⟩,
          FS.mk ["/m/a.yaml", "/m/b.ckpt"] ["/m"]) :=
  ⟨by decide,
    (claimC5_directory_resolution sampleBook (FS.mk ["/m/a.yaml", "/m/b.ckpt"] ["/m"]) "/m"
      (by decide)).2 "a.yaml" [] "b.ckpt" [] (by decide) (by decide)⟩

/-- C10: on an existing directory with no `.yaml` file,
`AutoProcessor.from_pretrained` reaches the unguarded `yaml_list[0]` and
fails with the out-of-bounds `IndexError` (not a not-found error); the
access is guarded only by the implicit precondition that the directory
holds at least one `.yaml` file, in which case the first one is used. -/
theorem claimC10_processor_unguarded_index (book : Book) (fs : FS) (dir : String)
    (hdir : fs.isDir dir = true) :
    ((fs.listdir dir).filter (fun f => strEndsWith f ".yaml") = [] →
      AutoProcessor.fromPretrained book fs dir = (.error .indexError, fs))
    ∧ (∀ y ys, (fs.listdir dir).filter (fun f => strEndsWith f ".yaml") = y :: ys →
        AutoProcessor.fromPretrained book fs dir = (.ok (osJoin dir y), fs)) := by
  have hex : fs.existsPath dir = true := FS.existsPath_of_isDir fs dir hdir
  constructor
  · intro h
    simp [AutoProcessor.fromPretrained, hex, hdir, h]
  · intro y ys hy
    simp [AutoProcessor.fromPretrained, hex, hdir, hy]

/-- Witness for C10 at an existing directory containing no files. -/
theorem claimC10_processor_unguarded_index_witness :
    (FS.mk [] ["/d"]).isDir "/d" = true
    ∧ ((FS.mk [] ["/d"]).listdir "/d").filter (fun f => strEndsWith f ".yaml") = []
    ∧ AutoProcessor.fromPretrained sampleBook (FS.mk [] ["/d"]) "/d" =
        (.error .indexError, FS.mk [] ["/d"]) :=
  ⟨by decide, by decide,
    (claimC10_processor_unguarded_index sampleBook (FS.mk [] ["/d"]) "/d"
      (by decide)).1 (by decide)⟩

/-- C6: for tokenizer resolution on an existing directory (not listed in
the tokenizer SupportList) whose config yaml is absent or supplies no
`processor.tokenizer.type`, the class name is taken from the
`tokenizer_class` key of the sibling `tokenizer_config.json`: a missing
file raises the not-found error, a present file without the key raises
the missing-field error, and otherwise the stored class name is
returned. -/
theorem claimC6_tokenizer_json_fallback (book : Book)
    (tokL : List (String × List String)) (yT jT : String → Option String)
    (fs : FS) (dir : String)
    (hnotsup : ((AutoTokenizerSupportList tokL).map Prod.snd).flatten.contains dir = false)
    (hdir : fs.isDir dir = true)
    (hyaml : AutoTokenizer.getClassNameFromYaml yT fs dir = .ok none ∨
      AutoTokenizer.getClassNameFromYaml yT fs dir = .ok (some "")) :
    (fs.existsPath (osJoin dir "tokenizer_config.json") = false →
      AutoTokenizer.fromPretrained book tokL yT jT fs dir =
        (.error (.tokenizerConfigNotFound (osJoin dir "tokenizer_config.json")), fs))
    ∧ (fs.existsPath (osJoin dir "tokenizer_config.json") = true →
        jT (osJoin dir "tokenizer_config.json") = none →
        AutoTokenizer.fromPretrained book tokL yT jT fs dir =
          (.error (.missingTokenizerClass (osJoin dir "tokenizer_config.json")), fs))
    ∧ (∀ c, fs.existsPath (osJoin dir "tokenizer_config.json") = true →
        jT (osJoin dir "tokenizer_config.json") = some c → c ≠ "" →
        AutoTokenizer.fromPretrained book tokL yT jT fs dir = (.ok (some c), fs)) := by
  refine ⟨?_, ?_, ?_⟩
  · intro hjson
    rcases hyaml with hy | hy <;>
      simp_all [AutoTokenizer.fromPretrained, optStrFalsy,
        AutoTokenizer.getClassNameFromTokenizerConfigFile] <;>
      exact fun x x1 hx hdx => absurd hdx (hnotsup x x1 hx)
  · intro hjson hclass
    rcases hyaml with hy | hy <;>
      simp_all [AutoTokenizer.fromPretrained, optStrFalsy,
        AutoTokenizer.getClassNameFromTokenizerConfigFile] <;>
      exact fun x x1 hx hdx => absurd hdx (hnotsup x x1 hx)
  · intro c hjson hclass hc
    rcases hyaml with hy | hy <;>
      simp_all [AutoTokenizer.fromPretrained, optStrFalsy,
        AutoTokenizer.getClassNameFromTokenizerConfigFile] <;>
      exact fun x x1 hx hdx => absurd hdx (hnotsup x x1 hx)

/-- Witness for C6: a directory with no yaml and no
`tokenizer_config.json` fails with the not-found error. -/
theorem claimC6_tokenizer_json_fallback_witness :
    ((AutoTokenizerSupportList [("clip", ["clip_vit_b_32"])]).map
        Prod.snd).flatten.contains "/t" = false
    ∧ (FS.mk [] ["/t"]).isDir "/t" = true
    ∧ (FS.mk [] ["/t"]).existsPath (osJoin "/t" "tokenizer_config.json") = false
    ∧ AutoTokenizer.fromPretrained sampleBook [("clip", ["clip_vit_b_32"])]
        (fun _ => none) (fun _ => none) (FS.mk [] ["/t"]) "/t" =
        (.error (.tokenizerConfigNotFound (osJoin "/t" "tokenizer_config.json")),
          FS.mk [] ["/t"]) :=
  ⟨by decide, by decide, by decide,
    (claimC6_tokenizer_json_fallback sampleBook [("clip", ["clip_vit_b_32"])]
      (fun _ => none) (fun _ => none) (FS.mk [] ["/t"]) "/t"
      (by decide) (by decide) (Or.inl rfl)).1 (by decide)⟩

/-- Removing a key from a support list removes it from the keys. -/
theorem keysContain_eraseKey (k : String) (l : List (String × List String)) :
    keysContain (eraseKey k l) k = false := by
  induction l with
  | nil => rfl
  | cons a as ih =>
    by_cases h : a.1 = k <;> simp [keysContain, eraseKey, List.filter, h] at ih ⊢

/-- C9 counterexample: on a SupportList containing the `mae` family,
`AutoProcessor.get_support_list()` differs from
`AutoConfig.get_support_list()` — the four entry points do not all
return the same mapping. -/
theorem claimC9_counterexample :
    AutoProcessorSupportList sampleBook.supportList ≠
      AutoConfigSupportList sampleBook.supportList := by
  decide

/-- C9 (amended): `AutoConfig.get_support_list()` and
`AutoModel.get_support_list()` return the same static model SupportList
unchanged; `AutoProcessor.get_support_list()` returns a copy with the
`mae` family removed (hence a different mapping whenever `mae` is a
key); `AutoTokenizer.get_support_list()` returns the separate static
tokenizer SupportList. -/
theorem claimC9_amended_support_lists
    (modelSupportList tokenizerSupportList : List (String × List String))
    (hmae : keysContain modelSupportList "mae" = true) :
    AutoConfigSupportList modelSupportList = AutoModelSupportList modelSupportList
    ∧ AutoProcessorSupportList modelSupportList = eraseKey "mae" modelSupportList
    ∧ AutoProcessorSupportList modelSupportList ≠ AutoConfigSupportList modelSupportList
    ∧ AutoTokenizerSupportList tokenizerSupportList = tokenizerSupportList := by
  refine ⟨rfl, rfl, ?_, rfl⟩
  intro h
  have h2 := keysContain_eraseKey "mae" modelSupportList
  rw [show AutoProcessorSupportList modelSupportList = eraseKey "mae" modelSupportList
    from rfl] at h
  rw [show AutoConfigSupportList modelSupportList = modelSupportList from rfl] at h
  rw [h] at h2
  rw [hmae] at h2
  exact absurd h2 (by decide)

/-- Witness for C9 (amended) at the sample SupportList. -/
theorem claimC9_amended_support_lists_witness :
    keysContain sampleBook.supportList "mae" = true
    ∧ AutoProcessorSupportList sampleBook.supportList ≠
        AutoConfigSupportList sampleBook.supportList :=
  ⟨by decide,
    (claimC9_amended_support_lists sampleBook.supportList [] (by decide)).2.2.1⟩

/-! ### Lemmas about the dict operations of the round-trip bridge -/

theorem getField_updateKey_self (l : List (String × ConfigValue)) (k : String)
    (v : ConfigValue) : getField (updateKey l k v) k = some v := by
  induction l with
  | nil => simp [updateKey, getField]
  | cons a as ih =>
    by_cases h : a.1 = k
    · simp [updateKey, getField, h]
    · simpa [updateKey, getField, h] using ih

theorem getField_updateKey_ne (l : List (String × ConfigValue)) (k k2 : String)
    (v : ConfigValue) (hk : k2 ≠ k) :
    getField (updateKey l k v) k2 = getField l k2 := by
  have hk2 : ¬k = k2 := fun h => hk h.symm
  induction l with
  | nil => simp [updateKey, getField, hk2]
  | cons a as ih =>
    by_cases h : a.1 = k
    · simp [updateKey, getField, h, hk2]
    · by_cases h2 : a.1 = k2 <;> simp [updateKey, getField, h, h2, hk, hk2, ih]

theorem popKey_fst (l : List (String × ConfigValue)) (k : String) :
    (popKey l k).1 = getField l k := by
  induction l with
  | nil => rfl
  | cons a as ih =>
    by_cases h : a.1 = k <;> simp [popKey, getField, h, ih]

theorem getField_popKey_ne (l : List (String × ConfigValue)) (k k2 : String)
    (hk : k2 ≠ k) : getField (popKey l k).2 k2 = getField l k2 := by
  have hk2 : ¬k = k2 := fun h => hk h.symm
  induction l with
  | nil => rfl
  | cons a as ih =>
    by_cases h : a.1 = k
    · simp [popKey, getField, h, hk2]
    · by_cases h2 : a.1 = k2 <;> simp [popKey, getField, h, h2, hk, hk2, ih]

theorem getField_inverseParseFields (l : List (String × ConfigValue)) (k : String) :
    getField (inverseParseFields l) k = (getField l k).map inverseParseVal := by
  induction l with
  | nil => rfl
  | cons a as ih =>
    by_cases h : a.1 = k <;>
      simp [inverseParseFields, getField, h, ih]

/-- `model.arch.type` of a wrapped config is the popped `model_name`
value, with the side-table fallback when that value is absent or
`None`. -/
theorem archTypeVal_wrapConfig (side : Option String) (config : BaseConfig) :
    archTypeVal (wrapConfig side config) =
      some (match (popKey config.fields "model_name").1 with
        | some ConfigValue.null | none =>
          (match side with
           | some s => ConfigValue.str s
           | none => ConfigValue.null)
        | some v => v) := by
  cases config with
  | mk cn fs =>
    cases hp : (popKey fs "model_name").1 with
    | none => simp [wrapConfig, archTypeVal, BaseConfig.fields, hp, getField]
    | some v =>
      cases v <;> simp [wrapConfig, archTypeVal, BaseConfig.fields, hp, getField]

/-- `model.model_config.type` of a wrapped config is the `type` field of
the config with `model_name` popped. -/
theorem modelConfigTypeVal_wrapConfig (side : Option String) (config : BaseConfig) :
    modelConfigTypeVal (wrapConfig side config) =
      getField (popKey config.fields "model_name").2 "type" := rfl

/-- C2 counterexample: for the config `BaseConfig.mk "MyConfig" []`
(no `model_name` field) with no side-table entry for it, the round trip
`_wrap_config ∘ _inverse_parse_config` yields a tree whose
`model.arch.type` is `None`, not the original class name `"MyConfig"`. -/
theorem claimC2_counterexample :
    archTypeVal (wrapConfig none (inverseParseCfg (BaseConfig.mk "MyConfig" []))) ≠
      some (.str (BaseConfig.mk "MyConfig" []).className) := by
  intro h
  rw [show archTypeVal (wrapConfig none (inverseParseCfg (BaseConfig.mk "MyConfig" []))) =
      some ConfigValue.null from rfl] at h
  exact ConfigValue.noConfusion (Option.some.inj h)

/-- C2 (amended): the round trip `_wrap_config ∘ _inverse_parse_config`
preserves the original class name under `model.model_config.type` (where
`_inverse_parse_config` recorded it), while `model.arch.type` is the
config's `model_name` value when that is present and not `None`, and
otherwise (key absent, or stored value `None`) the identity-keyed
side-table entry for the config (`None` when that too is absent). -/
theorem claimC2_roundtrip_amended (cfg : BaseConfig) (side : Option String) :
    modelConfigTypeVal (wrapConfig side (inverseParseCfg cfg)) =
      some (.str cfg.className)
    ∧ archTypeVal (wrapConfig side (inverseParseCfg cfg)) =
        some (match getField cfg.fields "model_name" with
          | some ConfigValue.null | none =>
            (match side with
             | some s => ConfigValue.str s
             | none => ConfigValue.null)
          | some v => inverseParseVal v) := by
  cases cfg with
  | mk cn fs =>
    constructor
    · rw [modelConfigTypeVal_wrapConfig]
      show getField
        (popKey (updateKey (inverseParseFields fs) "type" (.str cn)) "model_name").2
        "type" = some (.str cn)
      rw [getField_popKey_ne _ _ _ (by decide)]
      exact getField_updateKey_self _ _ _
    · rw [archTypeVal_wrapConfig]
      show some (match (popKey (updateKey (inverseParseFields fs) "type" (.str cn))
          "model_name").1 with
        | some ConfigValue.null | none =>
          (match side with
           | some s => ConfigValue.str s
           | none => ConfigValue.null)
        | some v => v) = _
      rw [popKey_fst, getField_updateKey_ne _ _ _ _ (by decide),
        getField_inverseParseFields]
      show _ = some (match getField fs "model_name" with
        | some ConfigValue.null | none =>
          (match side with
           | some s => ConfigValue.str s
           | none => ConfigValue.null)
        | some v => inverseParseVal v)
      cases hg : getField fs "model_name" with
      | none => rfl
      | some v => cases v <;> rfl
